import Mathlib

/-!
Verification of the SplitPy data-acquisition layer (`splitpy/utils.py`).

This file gives a shallow embedding of the option post-processing
(`get_options`, `get_options_prep_offline`, `get_options_OL_proc`), the
local-file resolver `parse_localdata_for_comp`, and the waveform acquisition
function `get_data_NEZ`, and proves properties of them.

External library objects (obspy traces, the fdsn client, the filesystem and
the stream-merge operation) are modelled as explicit data/oracles:
a `Trace` carries the header fields the Python code reads (times are
modelled as integers in an arbitrary fixed time unit), `Env` bundles the
file reader and the merge operation, `Client` is the `get_waveforms` oracle.
Python runtime errors (IndexError on `st[0]` of an empty selection,
UnboundLocalError on reading an unassigned local variable, TypeError on
`None + Stream`) are modelled with the `Py` (= `Except PyExc`) monad.
-/

set_option maxRecDepth 8000

namespace SplitPy

/-- A Python float sample value: either NaN or an actual number.  Comparison
`pyEq` mirrors IEEE equality as Python sees it: NaN compares unequal to
everything, numbers compare by value. -/
inductive Val where
  | nan : Val
  | num : Rat → Val
deriving DecidableEq

/-- Python `==` on float values (NaN is never equal, even to itself). -/
def pyEq : Val → Val → Bool
  | Val.num a, Val.num b => a == b
  | _, _ => false

/-- A processing operation applied to a stream, mirroring the entries obspy
appends to `stats.processing`: the two `detrend` calls, the two `filter`
calls and the `resample` call of `get_data_NEZ` (utils.py lines 734-739). -/
inductive ProcStep where
  | detrendDemean : ProcStep
  | detrendLinear : ProcStep
  | lowpass (freq : Rat) (corners : Nat) (zerophase : Bool) : ProcStep
  | resample (rate : Rat) : ProcStep
  | bandpass (freqmin freqmax : Rat) (corners : Nat) (zerophase : Bool) : ProcStep
deriving DecidableEq

/-- The trace header fields read by utils.py.  `sacUser9` is the SAC `user9`
header (`stats.sac['user9']`), `processing` is the obspy processing log. -/
structure TraceStats where
  network : String
  station : String
  location : String
  channel : String
  starttime : Int
  delta : Int
  sacUser9 : Val
  processing : List ProcStep
deriving DecidableEq

/-- A waveform trace: header plus samples.  Times are absolute seconds. -/
structure Trace where
  stats : TraceStats
  data : List Val
deriving DecidableEq

/-- The derived `stats.endtime` of an obspy trace:
`starttime + delta * (npts - 1)`. -/
def traceEnd (tr : Trace) : Int :=
  tr.stats.starttime + tr.stats.delta * ((tr.data.length - 1 : Nat) : Int)

/-- A UTCDateTime as utils.py consumes it: the absolute time `t` (seconds)
used for comparisons and arithmetic, and the calendar fields that
`strftime("%Y")` / `strftime("%j")` print (year and day-of-year). -/
structure UTCDateTime where
  t : Int
  year : Nat
  jday : Nat
deriving DecidableEq

/-- Left-pad the decimal representation of `n` with zeros to width `w`,
as C `strftime` does for `%Y` (w = 4) and `%j` (w = 3). -/
def padZ (w : Nat) (n : Nat) : String :=
  let s := toString n
  String.mk (List.replicate (w - s.length) '0') ++ s

/-- `start.strftime("%Y")` (utils.py line 444). -/
def strftimeY (u : UTCDateTime) : String := padZ 4 u.year

/-- `start.strftime("%j")` (utils.py line 445). -/
def strftimeJ (u : UTCDateTime) : String := padZ 3 u.jday

/-- The branch condition of `parse_localdata_for_comp` (utils.py line 455):
the `%j` day-of-year strings of start and end are compared; the year is not
part of the comparison. -/
def spansSingleDay (start endT : UTCDateTime) : Bool :=
  strftimeJ start == strftimeJ endT

/-- Two times fall on the same calendar day: same year and same day of year.
This is the spec-side notion used by the claims, to compare with the
code's `spansSingleDay` condition. -/
def sameCalendarDay (a b : UTCDateTime) : Bool :=
  a.year == b.year && a.jday == b.jday

/-- Station metadata consumed by utils.py: `sta.network`, `sta.station`,
`sta.channel`, the alternate network codes `sta.altnet`, and the location
codes `sta.location`. -/
structure Station where
  network : String
  station : String
  channel : String
  altnet : List String
  location : List String

/-- The external-library environment of `parse_localdata_for_comp`:
`readFile f` is `obspy.read(f, format="SAC")`, `mergeSt` is `Stream.merge`
(`none` models the exception the source catches at utils.py line 628). -/
structure Env where
  readFile : String → List Trace
  mergeSt : List Trace → Option (List Trace)

/-- The remote data-center client: `get_waveforms(network, station, location,
channel, starttime, endtime)`; `none` models a raised exception or is
never produced on success. -/
structure Client where
  getWaveforms : String → String → String → String → Int → Int → Option (List Trace)

/-- Python runtime errors that the modelled code can raise. -/
inductive PyExc where
  | indexError : PyExc
  | unboundLocal : PyExc
  | typeError : PyExc
deriving DecidableEq

/-- Computation that may raise a Python exception. -/
abbrev Py (α : Type) : Type := Except PyExc α

/-- The value returned by `get_data_NEZ`: either the error tuple
`(True, None, None, None)` or `(False, trN, trE, trZ)`. -/
inductive GDReturn where
  | errTuple : GDReturn
  | traces (trN trE trZ : Trace) : GDReturn
deriving DecidableEq

/-- ASCII `str.upper` on one character. -/
def charUpper (c : Char) : Char :=
  if 97 ≤ c.toNat ∧ c.toNat ≤ 122 then Char.ofNat (c.toNat - 32) else c

/-- Python `str.upper()` (ASCII). -/
def strUpper (s : String) : String := String.mk (s.data.map charUpper)

/-- Python `s[0:2]`. -/
def strTake2 (s : String) : String := String.mk (s.data.take 2)

/-- Fuel-driven glob matcher: `*` matches any (possibly empty) run of
characters, `?` matches one character, anything else matches literally.
This is `fnmatch` on POSIX for the patterns utils.py builds (which use only
`*` and literal characters; character classes are not modelled).  The fuel
only drives structural recursion; `globMatch` supplies enough of it. -/
def globMatchF : Nat → List Char → List Char → Bool
  | 0, _, _ => false
  | _ + 1, [], s => s.isEmpty
  | k + 1, '*' :: ps, [] => globMatchF k ps []
  | k + 1, '*' :: ps, c :: cs => globMatchF k ps (c :: cs) || globMatchF k ('*' :: ps) cs
  | _ + 1, '?' :: _, [] => false
  | k + 1, '?' :: ps, _ :: cs => globMatchF k ps cs
  | _ + 1, _ :: _, [] => false
  | k + 1, p :: ps, c :: cs => p == c && globMatchF k ps cs

/-- `fnmatch.fnmatch(s, pat)`. -/
def globMatch (pat s : List Char) : Bool :=
  globMatchF (pat.length + s.length + 1) pat s

/-- `fnmatch.filter(names, pat)`. -/
def fnmatchFilter (names : List String) (pat : String) : List String :=
  names.filter (fun n => globMatch pat.data n.data)

/-- Python `"{0:Ns}".format(s)`: pad `s` on the right with spaces to a
minimum width of `N`. -/
def fmtMin (w : Nat) (s : String) : String :=
  s ++ String.mk (List.replicate (w - s.length) ' ')

/-- Filename pattern "Format 1" of `parse_localdata_for_comp`:
`'*/{0:4s}.{1:3s}.{2:s}.{3:s}.*.{4:2s}{5:1s}.SAC'` (utils.py line 457). -/
def sacPat1 (yr jd net stn chan2 comp : String) : String :=
  "*/" ++ fmtMin 4 yr ++ "." ++ fmtMin 3 jd ++ "." ++ net ++ "." ++ stn ++
    ".*." ++ fmtMin 2 chan2 ++ fmtMin 1 comp ++ ".SAC"

/-- Filename pattern "Format 2" of `parse_localdata_for_comp`:
`'*/{0:4s}.{1:3s}.{2:s}.{3:s}.*.*{4:1s}.SAC'` (utils.py line 462). -/
def sacPat2 (yr jd net stn comp : String) : String :=
  "*/" ++ fmtMin 4 yr ++ "." ++ fmtMin 3 jd ++ "." ++ net ++ "." ++ stn ++
    ".*.*" ++ fmtMin 1 comp ++ ".SAC"

/-- The four-stage candidate-file search of the single-day branch of
`parse_localdata_for_comp` (utils.py lines 456-478): Format 1 with the
station's network; if empty, Format 2 with the station's network; if empty,
Format 1 once per alternate network with that alternate network; if empty,
Format 2 once per alternate network — but the source formats this last
pattern with `sta.network`, not `anet` (utils.py lines 477-478), so the
alternate code is not used there.  Only the single-day block has this slip;
the two-day blocks use `anet` (see `twoDayFileCandidates`). -/
def singleDayFileCandidates (stdata : List String) (sta : Station) (yr jd comp : String) : List String :=
  let chan2 := strTake2 (strUpper sta.channel)
  let l1 := fnmatchFilter stdata
    (sacPat1 yr jd (strUpper sta.network) (strUpper sta.station) chan2 (strUpper comp))
  let l2 := if l1.length = 0 then
      fnmatchFilter stdata
        (sacPat2 yr jd (strUpper sta.network) (strUpper sta.station) (strUpper comp))
    else l1
  let l3 := if l2.length = 0 then
      sta.altnet.flatMap (fun anet => fnmatchFilter stdata
        (sacPat1 yr jd (strUpper anet) (strUpper sta.station) chan2 (strUpper comp)))
    else l2
  let l4 := if l3.length = 0 then
      sta.altnet.flatMap (fun _anet => fnmatchFilter stdata
        (sacPat2 yr jd (strUpper sta.network) (strUpper sta.station) (strUpper comp)))
    else l3
  l4

/-- The four-stage candidate-file search of the two-day branch of
`parse_localdata_for_comp`, used for the day-1 list (utils.py lines 526-546,
with the start year/day) and for the day-2 list (lines 548-568, with the end
year/day).  Same staging as the single-day search, except that here the last
stage correctly formats its pattern with `anet` (lines 545-546 and 567-568),
unlike the single-day block's line 478. -/
def twoDayFileCandidates (stdata : List String) (sta : Station) (yr jd comp : String) : List String :=
  let chan2 := strTake2 (strUpper sta.channel)
  let l1 := fnmatchFilter stdata
    (sacPat1 yr jd (strUpper sta.network) (strUpper sta.station) chan2 (strUpper comp))
  let l2 := if l1.length = 0 then
      fnmatchFilter stdata
        (sacPat2 yr jd (strUpper sta.network) (strUpper sta.station) (strUpper comp))
    else l1
  let l3 := if l2.length = 0 then
      sta.altnet.flatMap (fun anet => fnmatchFilter stdata
        (sacPat1 yr jd (strUpper anet) (strUpper sta.station) chan2 (strUpper comp)))
    else l2
  let l4 := if l3.length = 0 then
      sta.altnet.flatMap (fun anet => fnmatchFilter stdata
        (sacPat2 yr jd (strUpper anet) (strUpper sta.station) (strUpper comp)))
    else l3
  l4

/-- The no-data substitution (utils.py lines 496-500 and 587-596): if the SAC
`user9` header is neither 0.0 nor -12345.0, samples equal to it become
`ndval`.  Acts on `st[0]` only, as the source does. -/
def substTrace (nd : Val) (tr : Trace) : Trace :=
  let stnd := tr.stats.sacUser9
  if !(pyEq stnd (Val.num 0)) && !(pyEq stnd (Val.num (-12345))) then
    { tr with data := tr.data.map (fun v => if pyEq v stnd then nd else v) }
  else tr

/-- `st[0].data[st[0].data == stnd] = ndval` applied to a stream. -/
def substNoData (nd : Val) : List Trace → List Trace
  | [] => []
  | tr :: rest => substTrace nd tr :: rest

/-- `True in isnan(st[0].data)` for a single trace. -/
def hasNan (tr : Trace) : Bool :=
  tr.data.any (fun v => match v with | Val.nan => true | Val.num _ => false)

/-- Time of sample `i` of a trace. -/
def sampleTime (tr : Trace) (i : Nat) : Int :=
  tr.stats.starttime + tr.stats.delta * (i : Int)

/-- Model of `Trace.trim(starttime=s, endtime=e)`: keep the samples whose
time lies in `[s, e]` and move `starttime` to the first kept sample. -/
def trimTrace (s e : Int) (tr : Trace) : Trace :=
  let keep := (List.range tr.data.length).filter
    (fun i => decide (s ≤ sampleTime tr i) && decide (sampleTime tr i ≤ e))
  { tr with
    stats := { tr.stats with starttime :=
      match keep.head? with
      | some i => sampleTime tr i
      | none => tr.stats.starttime },
    data := keep.map (fun i => tr.data.getD i (Val.num 0)) }

/-- `Stream.trim` applied to each trace. -/
def trimStream (s e : Int) (st : List Trace) : List Trace :=
  st.map (trimTrace s e)

/-- The per-file loop of the single-day branch (utils.py lines 486-521): skip
files that do not read as exactly one trace, substitute no-data values, keep
the file only when its trace spans `[s, e]`, trim, and skip it when NaNs
remain; the first surviving file is returned as `(False, st)`. -/
def processLocalFiles (env : Env) (s e : Int) (nd : Val) : List String → Bool × Option (List Trace)
  | [] => (true, none)
  | f :: rest =>
    match env.readFile f with
    | [tr0] =>
      let tr := substTrace nd tr0
      if tr.stats.starttime ≤ s ∧ e ≤ traceEnd tr then
        let trt := trimTrace s e tr
        if hasNan trt then processLocalFiles env s e nd rest
        else (false, some [trt])
      else processLocalFiles env s e nd rest
    | _ => processLocalFiles env s e nd rest

/-- The single-day branch of `parse_localdata_for_comp` (utils.py lines
455-521): compute the candidate list, return `(True, None)` when it is
empty, otherwise run the per-file loop (falling through to `(True, None)`
at line 636 when no file survives). -/
def singleDayCase (env : Env) (comp : String) (stdata : List String) (sta : Station)
    (start endT : UTCDateTime) (ndval : Val) : Bool × Option (List Trace) :=
  let lcl := singleDayFileCandidates stdata sta (strftimeY start) (strftimeJ start) comp
  if lcl.length = 0 then (true, none)
  else processLocalFiles env start.t endT.t ndval lcl

/-- Inner loop over day-2 files for a fixed day-1 stream `st1` (utils.py
lines 581-632).  `st1[0]` / `st2[0]` on an empty stream raise IndexError.
When the day-1 end time is at or after the day-2 start time minus one sample
interval, both streams get the no-data substitution (an in-place mutation of
`st1`, threaded into the remaining iterations), the concatenation is merged
(`none` = the exception swallowed at line 628), and a single merged trace
covering `[s, e]` is trimmed and returned unless it still contains NaNs. -/
def scanDay2 (env : Env) (s e : Int) (nd : Val) : List String → List Trace → Py (Option (List Trace))
  | [], _ => Except.ok none
  | f2 :: rest, st1 =>
    match st1, env.readFile f2 with
    | [], _ => Except.error PyExc.indexError
    | _ :: _, [] => Except.error PyExc.indexError
    | tr1 :: r1, tr2 :: r2 =>
      if tr2.stats.starttime - tr2.stats.delta ≤ traceEnd tr1 then
        let st1n := substNoData nd (tr1 :: r1)
        let st2n := substNoData nd (tr2 :: r2)
        match env.mergeSt (st1n ++ st2n) with
        | none => scanDay2 env s e nd rest st1n
        | some [tr] =>
          if tr.stats.starttime ≤ s ∧ e ≤ traceEnd tr then
            if hasNan (trimTrace s e tr) then scanDay2 env s e nd rest st1n
            else Except.ok (some (trimStream s e [tr]))
          else scanDay2 env s e nd rest st1n
        | some _ => scanDay2 env s e nd rest st1n
      else scanDay2 env s e nd rest (tr1 :: r1)

/-- Outer loop over day-1 files (utils.py lines 578-580): read each day-1
file in turn and run the inner day-2 loop on it. -/
def scanDay1 (env : Env) (s e : Int) (nd : Val) (l2 : List String) : List String → Py (Option (List Trace))
  | [] => Except.ok none
  | f1 :: rest =>
    match scanDay2 env s e nd l2 (env.readFile f1) with
    | Except.error ex => Except.error ex
    | Except.ok (some st) => Except.ok (some st)
    | Except.ok none => scanDay1 env s e nd l2 rest

/-- The two-calendar-day branch of `parse_localdata_for_comp` (utils.py
lines 525-636): build both candidate lists; `(True, None)` when both are
empty; run the merge loops when both are non-empty; `(True, None)` when the
loops find nothing (line 636), or when exactly one list is non-empty. -/
def twoDayCase (env : Env) (comp : String) (stdata : List String) (sta : Station)
    (start endT : UTCDateTime) (ndval : Val) : Py (Bool × Option (List Trace)) :=
  let l1 := twoDayFileCandidates stdata sta (strftimeY start) (strftimeJ start) comp
  let l2 := twoDayFileCandidates stdata sta (strftimeY endT) (strftimeJ endT) comp
  if l1.length = 0 ∧ l2.length = 0 then Except.ok (true, none)
  else if 0 < l1.length ∧ 0 < l2.length then
    match scanDay1 env start.t endT.t ndval l2 l1 with
    | Except.error ex => Except.error ex
    | Except.ok (some st) => Except.ok (false, some st)
    | Except.ok none => Except.ok (true, none)
  else Except.ok (true, none)

/-- `parse_localdata_for_comp` (utils.py lines 436-636): single-day search
when the `%j` strings of start and end coincide, two-day merge search
otherwise. -/
def parse_localdata_for_comp (env : Env) (comp : String) (stdata : List String) (sta : Station)
    (start endT : UTCDateTime) (ndval : Val) : Py (Bool × Option (List Trace)) :=
  if spansSingleDay start endT then
    Except.ok (singleDayCase env comp stdata sta start endT ndval)
  else
    twoDayCase env comp stdata sta start endT ndval

/-- Apply one processing operation to a trace: the obspy processing log
records the operation; the numeric effect belongs to the library and is not
modelled. -/
def applyStep (s : ProcStep) (tr : Trace) : Trace :=
  { tr with stats := { tr.stats with processing := tr.stats.processing ++ [s] } }

/-- Apply one processing operation to every trace of a stream. -/
def applyStepSt (s : ProcStep) (st : List Trace) : List Trace :=
  st.map (applyStep s)

/-- The processing pipeline of `get_data_NEZ` (utils.py lines 734-739), in
source order: `detrend('demean')`, `detrend('linear')`,
`filter('lowpass', freq=0.5*5.0, corners=2, zerophase=True)`,
`resample(5.0)`,
`filter('bandpass', freqmin=0.01, freqmax=0.25, corners=2, zerophase=True)`. -/
def processStream (st : List Trace) : List Trace :=
  applyStepSt (ProcStep.bandpass (1/100) (1/4) 2 true)
    (applyStepSt (ProcStep.resample 5)
      (applyStepSt (ProcStep.lowpass ((1/2 : Rat) * 5) 2 true)
        (applyStepSt ProcStep.detrendLinear
          (applyStepSt ProcStep.detrendDemean st))))

/-- The whole pipeline applied to one trace. -/
def applyPipe (tr : Trace) : Trace :=
  applyStep (ProcStep.bandpass (1/100) (1/4) 2 true)
    (applyStep (ProcStep.resample 5)
      (applyStep (ProcStep.lowpass ((1/2 : Rat) * 5) 2 true)
        (applyStep ProcStep.detrendLinear
          (applyStep ProcStep.detrendDemean tr))))

/-- The five processing-log entries, in the order the source applies them. -/
def pipelineSteps : List ProcStep :=
  [ProcStep.detrendDemean, ProcStep.detrendLinear,
   ProcStep.lowpass ((1/2 : Rat) * 5) 2 true, ProcStep.resample 5,
   ProcStep.bandpass (1/100) (1/4) 2 true]

/-- `st.select(component=c)`: the traces whose channel code ends in `c`
(case-insensitively, as obspy matches the last channel character). -/
def selectComp (st : List Trace) (c : Char) : List Trace :=
  st.filter (fun tr =>
    match (strUpper tr.stats.channel).data.getLast? with
    | some d => d == charUpper c
    | none => false)

/-- The error-reporting branch of the component check (utils.py lines
714-719): each of the three `if not st.select(component=X)[0]` report lines
indexes its selection, so a missing component raises IndexError here;
otherwise `(True, None, None, None)` is returned. -/
def errBranch (stm : List Trace) : Py GDReturn :=
  match (selectComp stm 'Z').head? with
  | none => Except.error PyExc.indexError
  | some _ =>
    match (selectComp stm 'E').head? with
    | none => Except.error PyExc.indexError
    | some _ =>
      match (selectComp stm 'N').head? with
      | none => Except.error PyExc.indexError
      | some _ => Except.ok GDReturn.errTuple

/-- Lines 713-747 of `get_data_NEZ` for a stream that is not `None`: the
component check (line 713: `st.select('Z')[0]` raises on a missing Z; the
E disjunct lacks the index because of the `'E'[0]` typo, so it tests the
selection's emptiness; the N disjunct raises on a missing N), the trace
length check (line 725-728, where `ll2` is recomputed from the Z component
instead of N), processing, and extraction of the three traces. -/
def checkAndProcess (stm : List Trace) : Py GDReturn :=
  match (selectComp stm 'Z').head? with
  | none => Except.error PyExc.indexError
  | some trZ0 =>
    if trZ0.data.length = 0 then errBranch stm
    else if (selectComp stm 'E').length = 0 then errBranch stm
    else
      match (selectComp stm 'N').head? with
      | none => Except.error PyExc.indexError
      | some trN0 =>
        if trN0.data.length = 0 then errBranch stm
        else
          match (selectComp stm 'Z').head?, (selectComp stm 'E').head?,
                (selectComp stm 'Z').head? with
          | some ll0, some ll1, some ll2 =>
            if ¬(ll0.data.length = ll1.data.length ∧ ll0.data.length = ll2.data.length) then
              Except.ok GDReturn.errTuple
            else
              match (selectComp (processStream stm) 'E').head?,
                    (selectComp (processStream stm) 'N').head?,
                    (selectComp (processStream stm) 'Z').head? with
              | some trE, some trN, some trZ => Except.ok (GDReturn.traces trN trE trZ)
              | _, _, _ => Except.error PyExc.indexError
          | _, _, _ => Except.error PyExc.indexError

/-- Lines 708-747 of `get_data_NEZ` on the state of the local variable `st`:
`none` = never assigned (reading it raises UnboundLocalError), `some none` =
`st is None` (return the error tuple), `some (some stm)` = a stream. -/
def finishStream (stVar : Option (Option (List Trace))) : Py GDReturn :=
  match stVar with
  | none => Except.error PyExc.unboundLocal
  | some none => Except.ok GDReturn.errTuple
  | some (some stm) => checkAndProcess stm

/-- The client loop body (utils.py lines 681-705) once at least one location
is tried: per location request `sta.channel.upper() + 'E,...N,...Z'`; a
3-trace answer stops the loop with the stream, anything else (or an
exception) sets `st = None` and continues. -/
def clientLoopGo (client : Client) (sta : Station) (s e : Int) : List String → Bool × Option (Option (List Trace))
  | [] => (true, some none)
  | loc :: rest =>
    let channels := strUpper sta.channel ++ "E," ++ strUpper sta.channel ++ "N," ++
      strUpper sta.channel ++ "Z"
    match client.getWaveforms sta.network sta.station loc channels s e with
    | some st =>
      if st.length = 3 then (false, some (some st))
      else clientLoopGo client sta s e rest
    | none => clientLoopGo client sta s e rest

/-- The client block (utils.py lines 678-705): `erd` is reset to `False`
before the loop, so an empty `sta.location` leaves the loop body unexecuted
and the local variable `st` unassigned. -/
def clientBlock (client : Client) (sta : Station) (s e : Int) : Bool × Option (Option (List Trace)) :=
  match sta.location with
  | [] => (false, none)
  | loc :: rest => clientLoopGo client sta s e (loc :: rest)

/-- The local-data block of `get_data_NEZ` (utils.py lines 662-675): when
`stdata` is non-empty, resolve Z, N and E in that order; on full success the
streams are concatenated (`stZ + stN + stE`); adding `None` to a stream
would raise TypeError. -/
def localAcquire (env : Env) (stdata : List String) (sta : Station)
    (start endT : UTCDateTime) (ndval : Val) : Py (Bool × Option (Option (List Trace))) :=
  if 0 < stdata.length then
    match parse_localdata_for_comp env "Z" stdata sta start endT ndval with
    | Except.error ex => Except.error ex
    | Except.ok (errZ, stZ) =>
      match parse_localdata_for_comp env "N" stdata sta start endT ndval with
      | Except.error ex => Except.error ex
      | Except.ok (errN, stN) =>
        match parse_localdata_for_comp env "E" stdata sta start endT ndval with
        | Except.error ex => Except.error ex
        | Except.ok (errE, stE) =>
          if errZ || errN || errE then Except.ok (true, none)
          else
            match stZ, stN, stE with
            | some sZ, some sN, some sE => Except.ok (false, some (some (sZ ++ sN ++ sE)))
            | _, _, _ => Except.error PyExc.typeError
  else Except.ok (true, none)

/-- `get_data_NEZ` (utils.py lines 643-747): local acquisition, client
fallback when `erd` is still true, then the component/length checks and
processing on the resulting `st` variable. -/
def get_data_NEZ (env : Env) (client : Client) (sta : Station) (start endT : UTCDateTime)
    (stdata : List String) (ndval : Val) : Py GDReturn :=
  match localAcquire env stdata sta start endT ndval with
  | Except.error ex => Except.error ex
  | Except.ok es =>
    let es2 := if es.1 then clientBlock client sta start.t endT.t else es
    finishStream es2.2

/-- Observer: the data length of the returned N trace, when `get_data_NEZ`
returned traces. -/
def resultNLen : Py GDReturn → Option Nat
  | Except.ok (GDReturn.traces trN _ _) => some trN.data.length
  | _ => none

/-- Observer: the data length of the returned Z trace, when `get_data_NEZ`
returned traces. -/
def resultZLen : Py GDReturn → Option Nat
  | Except.ok (GDReturn.traces _ _ trZ) => some trZ.data.length
  | _ => none

/-- The header-and-length skeleton of a stream, preserved by the no-data
substitution. -/
def shape (st : List Trace) : List (TraceStats × Nat) :=
  st.map (fun t => (t.stats, t.data.length))

/-- What a successful inner-loop result of the two-day merge search means:
some day-2 file `f2` of the candidate list `l` was read and substituted into
`b`; the (threaded) day-1 stream `a` — equal in headers and lengths to the
stream the loop started from — passed the overlap test `st1[0].stats.endtime
>= st2[0].stats.starttime - st2[0].stats.delta` against it; the
concatenation merged into a single trace `tr` spanning `[s, e]`; the trimmed
trace has no NaNs and is the returned stream. -/
def pairMerged (env : Env) (nd : Val) (s e : Int) (st1 : List Trace) (l : List String)
    (st : List Trace) : Prop :=
  ∃ a b ta tb tr f2,
    f2 ∈ l ∧
    shape a = shape st1 ∧
    b = substNoData nd (env.readFile f2) ∧
    a.head? = some ta ∧ b.head? = some tb ∧
    tb.stats.starttime - tb.stats.delta ≤ traceEnd ta ∧
    env.mergeSt (a ++ b) = some [tr] ∧
    tr.stats.starttime ≤ s ∧ e ≤ traceEnd tr ∧
    hasNan (trimTrace s e tr) = false ∧
    st = trimStream s e [tr]

/-- What a successful two-day merge search means: some day-1 candidate file
was read and its stream (up to the no-data substitution) merged with some
day-2 candidate file under the conditions of `pairMerged`. -/
def mergedFrom (env : Env) (nd : Val) (s e : Int) (l1 l2 : List String)
    (st : List Trace) : Prop :=
  ∃ f1, f1 ∈ l1 ∧ pairMerged env nd s e (env.readFile f1) l2 st

/-- The raw option values of `get_options` as `optparse` delivers them,
restricted to the fields its post-parse processing (utils.py lines 127-176)
touches; the purely numeric settings pass through unchanged and are
omitted. -/
structure RawOpts where
  stkeys : String
  startT : String
  endT : String
  userAuth : String
  skip : Bool
  ovr : Bool
  localdata : Option String
  ndvalFlag : Bool

/-- The processed options of `get_options`.  `stkeys` stays the raw string
when it was empty (the source only replaces it by the split list when
non-empty). -/
structure Opts where
  stkeys : Sum String (List String)
  startT : Option UTCDateTime
  endT : Option UTCDateTime
  userAuth : List String
  skip : Bool
  ovr : Bool
  localdata : List String
  ndval : Val

/-- The start/end time construction shared verbatim by the three option
parsers (utils.py lines 131-147, 284-300, 411-427): an empty string becomes
`None`; otherwise the string must parse as a UTCDateTime or `parser.error`
aborts.  `parseUTC` is the library's `UTCDateTime` constructor. -/
def constructTimeOpt (parseUTC : String → Option UTCDateTime) (label raw : String) :
    Except String (Option UTCDateTime) :=
  if 0 < raw.length then
    match parseUTC raw with
    | some u => Except.ok (some u)
    | none => Except.error ("Cannot construct UTCDateTime from " ++ label ++ " time: " ++ raw)
  else Except.ok none

/-- The post-parse processing of `get_options` (utils.py lines 127-176):
station-key split, start/end time construction, user-authentication split,
the skip/overwrite negation (lines 159-162), local-data split, and the
no-data value. -/
def get_options_post (parseUTC : String → Option UTCDateTime) (o : RawOpts) :
    Except String Opts :=
  let stkeys := if 0 < o.stkeys.length then Sum.inr (o.stkeys.splitOn ",") else Sum.inl o.stkeys
  match constructTimeOpt parseUTC "start" o.startT with
  | Except.error msg => Except.error msg
  | Except.ok startT =>
    match constructTimeOpt parseUTC "end" o.endT with
    | Except.error msg => Except.error msg
    | Except.ok endT =>
      match (if o.userAuth.length = 0 then Except.ok ([] : List String)
             else if (o.userAuth.splitOn ":").length = 2 then Except.ok (o.userAuth.splitOn ":")
             else Except.error
               "Error: Incorrect Username and Password Strings for User Authentification") with
      | Except.error msg => Except.error msg
      | Except.ok userAuth =>
        let so := if o.skip && o.ovr then (false, false) else (o.skip, o.ovr)
        let localdata := match o.localdata with
          | some s => s.splitOn ","
          | none => []
        let ndval := if o.ndvalFlag then Val.num 0 else Val.nan
        Except.ok { stkeys := stkeys, startT := startT, endT := endT, userAuth := userAuth,
                    skip := so.1, ovr := so.2, localdata := localdata, ndval := ndval }

/-- The raw option values of `get_options_prep_offline` (no skip/overwrite
flags are defined by that parser). -/
structure RawOptsPrep where
  stkeys : String
  startT : String
  endT : String
  userAuth : String
  localdata : Option String
  ndvalFlag : Bool

/-- The processed options of `get_options_prep_offline`. -/
structure OptsPrep where
  stkeys : Sum String (List String)
  startT : Option UTCDateTime
  endT : Option UTCDateTime
  userAuth : List String
  localdata : List String
  ndval : Val

/-- The post-parse processing of `get_options_prep_offline` (utils.py lines
280-324). -/
def get_options_prep_post (parseUTC : String → Option UTCDateTime) (o : RawOptsPrep) :
    Except String OptsPrep :=
  let stkeys := if 0 < o.stkeys.length then Sum.inr (o.stkeys.splitOn ",") else Sum.inl o.stkeys
  match constructTimeOpt parseUTC "start" o.startT with
  | Except.error msg => Except.error msg
  | Except.ok startT =>
    match constructTimeOpt parseUTC "end" o.endT with
    | Except.error msg => Except.error msg
    | Except.ok endT =>
      match (if o.userAuth.length = 0 then Except.ok ([] : List String)
             else if (o.userAuth.splitOn ":").length = 2 then Except.ok (o.userAuth.splitOn ":")
             else Except.error
               "Error: Incorrect Username and Password Strings for User Authentification") with
      | Except.error msg => Except.error msg
      | Except.ok userAuth =>
        let localdata := match o.localdata with
          | some s => s.splitOn ","
          | none => []
        let ndval := if o.ndvalFlag then Val.num 0 else Val.nan
        Except.ok { stkeys := stkeys, startT := startT, endT := endT, userAuth := userAuth,
                    localdata := localdata, ndval := ndval }

/-- The raw option values of `get_options_OL_proc`. -/
structure RawOptsOL where
  stkeys : String
  startT : String
  endT : String

/-- The processed options of `get_options_OL_proc`. -/
structure OptsOL where
  stkeys : Sum String (List String)
  startT : Option UTCDateTime
  endT : Option UTCDateTime

/-- The post-parse processing of `get_options_OL_proc` (utils.py lines
407-427): station-key split and time construction only. -/
def get_options_OL_post (parseUTC : String → Option UTCDateTime) (o : RawOptsOL) :
    Except String OptsOL :=
  let stkeys := if 0 < o.stkeys.length then Sum.inr (o.stkeys.splitOn ",") else Sum.inl o.stkeys
  match constructTimeOpt parseUTC "start" o.startT with
  | Except.error msg => Except.error msg
  | Except.ok startT =>
    match constructTimeOpt parseUTC "end" o.endT with
    | Except.error msg => Except.error msg
    | Except.ok endT =>
      Except.ok { stkeys := stkeys, startT := startT, endT := endT }

/-- The property claimed of the returned start/end times: each is `None`
exactly when the raw string was empty, and otherwise is whatever the
UTCDateTime constructor produced for that string. -/
def timesSpec (parseUTC : String → Option UTCDateTime) (sRaw eRaw : String)
    (rS rE : Option UTCDateTime) : Prop :=
  (if 0 < sRaw.length then ∃ u, parseUTC sRaw = some u ∧ rS = some u else rS = none) ∧
  (if 0 < eRaw.length then ∃ u, parseUTC eRaw = some u ∧ rE = some u else rE = none)

/-! Concrete stations, environments and clients used as witnesses and
counterexamples. -/

/-- Header for concrete test traces. -/
def stats0 (chan : String) (t0 delta : Int) : TraceStats :=
  { network := "CN", station := "STA", location := "00", channel := chan,
    starttime := t0, delta := delta, sacUser9 := Val.num 0, processing := [] }

/-- A concrete trace with `n` constant samples. -/
def mkTrace (chan : String) (t0 delta : Int) (n : Nat) : Trace :=
  { stats := stats0 chan t0 delta, data := List.replicate n (Val.num 1) }

/-- Environment with no local files and a failing merge. -/
def envEmpty : Env := { readFile := fun _ => [], mergeSt := fun _ => none }

/-- Client whose every request raises. -/
def client0 : Client := { getWaveforms := fun _ _ _ _ _ _ => none }

/-- A station with one location code and no alternate networks. -/
def staA : Station :=
  { network := "CN", station := "STA", channel := "BH", altnet := [], location := ["00"] }

/-- A station with alternate network "PO" (the CN/PO case the source's
comments describe). -/
def staCN : Station :=
  { network := "CN", station := "STA", channel := "BH", altnet := ["PO"], location := [] }

/-- A station with no location codes. -/
def staNoLoc : Station :=
  { network := "CN", station := "STA", channel := "BH", altnet := [], location := [] }

/-- Request window start: 2020-01-01 (day-of-year 1), absolute time 0. -/
def startA : UTCDateTime := { t := 0, year := 2020, jday := 1 }

/-- Request window end, 4 seconds later on the same day. -/
def endA : UTCDateTime := { t := 4, year := 2020, jday := 1 }

/-- Client returning three traces whose Z and E components have 5 samples
but whose N component has only 3 (same window, coarser sampling). -/
def clientC1 : Client :=
  { getWaveforms := fun _ _ _ _ _ _ =>
      some [mkTrace "BHZ" 0 1 5, mkTrace "BHE" 0 1 5, mkTrace "BHN" 0 2 3] }

/-- Client returning a 3-trace stream that contains no N component. -/
def clientC2 : Client :=
  { getWaveforms := fun _ _ _ _ _ _ =>
      some [mkTrace "BHZ" 0 1 5, mkTrace "BHE" 0 1 5, mkTrace "BHE" 0 1 5] }

/-- A local file list holding one Format-2 file under the alternate network
"PO" whose channel prefix ("HH") differs from the station's ("BH"), so only
a Format-2 search under "PO" can find it. -/
def stdataC3 : List String := ["d/2020.001.PO.STA.00.HHZ.SAC"]

/-- Start of a window whose end falls on the same day-of-year of the NEXT
year: 2020-01-01. -/
def startX : UTCDateTime := { t := 0, year := 2020, jday := 1 }

/-- End of that window: 2021-01-01, 366 days after `startX` (2020 is a leap
year), also day-of-year 1. -/
def endX : UTCDateTime := { t := 31622400, year := 2021, jday := 1 }

/-- Local file list for the year-crossing window. -/
def stdataX : List String := ["d/2020.001.CN.STA.00.BHZ.SAC"]

/-- A trace spanning the whole year-crossing window in two samples. -/
def trX : Trace := mkTrace "BHZ" 0 31622400 2

/-- Environment for the year-crossing window. -/
def envX : Env :=
  { readFile := fun f => if f = "d/2020.001.CN.STA.00.BHZ.SAC" then [trX] else [],
    mergeSt := fun _ => none }

/-- The stream the single-day search returns for the year-crossing window. -/
def stX : List Trace := [trimTrace 0 31622400 trX]

/-- Local SAC file names for a fully local Z/N/E day. -/
def fileZ : String := "d/2020.001.CN.STA.00.BHZ.SAC"

/-- Local N-component file name. -/
def fileN : String := "d/2020.001.CN.STA.00.BHN.SAC"

/-- Local E-component file name. -/
def fileE : String := "d/2020.001.CN.STA.00.BHE.SAC"

/-- Local file list with all three components on disk. -/
def stdataL : List String := [fileZ, fileN, fileE]

/-- Environment resolving all three components from disk. -/
def envL : Env :=
  { readFile := fun f =>
      if f = fileZ then [mkTrace "BHZ" 0 1 5]
      else if f = fileN then [mkTrace "BHN" 0 1 5]
      else if f = fileE then [mkTrace "BHE" 0 1 5]
      else [],
    mergeSt := fun _ => none }

/-- The local Z stream after trimming. -/
def sZL : List Trace := [trimTrace 0 4 (mkTrace "BHZ" 0 1 5)]

/-- The local N stream after trimming. -/
def sNL : List Trace := [trimTrace 0 4 (mkTrace "BHN" 0 1 5)]

/-- The local E stream after trimming. -/
def sEL : List Trace := [trimTrace 0 4 (mkTrace "BHE" 0 1 5)]

/-- Day-1 file of a two-calendar-day window, under the alternate network
"PO" with channel prefix "HH": only the day-1 Format-2 alternate-network
stage (utils.py lines 545-546) can match it for station `staCN`. -/
def fileD1 : String := "d/2020.365.PO.STA.00.HHZ.SAC"

/-- Day-2 file of a two-calendar-day window. -/
def fileD2 : String := "d/2020.366.CN.STA.00.BHZ.SAC"

/-- Local file list for the two-day window. -/
def stdataB : List String := [fileD1, fileD2]

/-- Day-1 trace: samples at 86000..86400 s. -/
def trD1 : Trace := mkTrace "HHZ" 86000 100 5

/-- Day-2 trace: samples at 86500..86900 s; its start minus one sample
interval is 86400, exactly the end of `trD1`. -/
def trD2 : Trace := mkTrace "BHZ" 86500 100 5

/-- The merged trace the merge oracle produces: 86000..86500 s. -/
def trMB : Trace := mkTrace "BHZ" 86000 100 6

/-- Environment for the two-day window. -/
def envB : Env :=
  { readFile := fun f => if f = fileD1 then [trD1] else if f = fileD2 then [trD2] else [],
    mergeSt := fun _ => some [trMB] }

/-- Start of the two-day window: late on 2020-12-30 (day 365). -/
def startB : UTCDateTime := { t := 86300, year := 2020, jday := 365 }

/-- End of the two-day window: early on 2020-12-31 (day 366). -/
def endB : UTCDateTime := { t := 86500, year := 2020, jday := 366 }

/-- The stream the two-day merge search returns. -/
def stB : List Trace := trimStream 86300 86500 [trMB]

/-- N trace of the client-path success run, after processing. -/
def tNC1 : Trace := applyPipe (mkTrace "BHN" 0 2 3)

/-- E trace of the client-path success run, after processing. -/
def tEC1 : Trace := applyPipe (mkTrace "BHE" 0 1 5)

/-- Z trace of the client-path success run, after processing. -/
def tZC1 : Trace := applyPipe (mkTrace "BHZ" 0 1 5)

/-- A UTCDateTime parsing oracle for the option-parsing witnesses: "A"
parses to a later time than "B". -/
def parseW : String → Option UTCDateTime
  | "A" => some { t := 100, year := 2020, jday := 2 }
  | "B" => some { t := 0, year := 2020, jday := 1 }
  | _ => none

/-- Raw `get_options` values with both the skip and the overwrite flag
given. -/
def rawBoth : RawOpts :=
  { stkeys := "", startT := "", endT := "", userAuth := "",
    skip := true, ovr := true, localdata := none, ndvalFlag := false }

/-- Raw `get_options` values whose end time parses strictly earlier than its
start time. -/
def rawRev : RawOpts :=
  { stkeys := "", startT := "A", endT := "B", userAuth := "",
    skip := false, ovr := false, localdata := none, ndvalFlag := false }

/-- Raw `get_options_OL_proc` values with the same reversed times. -/
def rawRevOL : RawOptsOL := { stkeys := "", startT := "A", endT := "B" }

/-- The options `get_options` returns for `rawRev`. -/
def optsRev : Opts :=
  { stkeys := Sum.inl "", startT := some { t := 100, year := 2020, jday := 2 },
    endT := some { t := 0, year := 2020, jday := 1 }, userAuth := [],
    skip := false, ovr := false, localdata := [], ndval := Val.nan }

/-- The options `get_options` returns for `rawBoth`. -/
def optsBoth : Opts :=
  { stkeys := Sum.inl "", startT := none, endT := none, userAuth := [],
    skip := false, ovr := false, localdata := [], ndval := Val.nan }

/-! ## Helper lemmas -/

theorem substTrace_stats (nd : Val) (tr : Trace) : (substTrace nd tr).stats = tr.stats := by
  by_cases hg : (!pyEq tr.stats.sacUser9 (Val.num 0) &&
      !pyEq tr.stats.sacUser9 (Val.num (-12345))) = true
  · simp [substTrace, hg]
  · simp [substTrace, hg]

theorem substTrace_dataLength (nd : Val) (tr : Trace) :
    (substTrace nd tr).data.length = tr.data.length := by
  by_cases hg : (!pyEq tr.stats.sacUser9 (Val.num 0) &&
      !pyEq tr.stats.sacUser9 (Val.num (-12345))) = true
  · simp [substTrace, hg]
  · simp [substTrace, hg]

theorem substTrace_traceEnd (nd : Val) (tr : Trace) :
    traceEnd (substTrace nd tr) = traceEnd tr := by
  rw [traceEnd, traceEnd, substTrace_stats, substTrace_dataLength]

theorem substNoData_shape (nd : Val) (st : List Trace) :
    shape (substNoData nd st) = shape st := by
  cases st with
  | nil => rfl
  | cons tr rest =>
    simp [substNoData, shape, substTrace_stats, substTrace_dataLength]

/-- Every successful result of the inner day-2 loop satisfies `pairMerged`
for the stream the loop started from (the in-place no-data substitution is
threaded through the loop, so the day-1 stream is tracked up to `shape`). -/
theorem scanDay2_spec (env : Env) (s e : Int) (nd : Val) :
    ∀ (l : List String) (st1 st : List Trace),
      scanDay2 env s e nd l st1 = Except.ok (some st) →
      pairMerged env nd s e st1 l st := by
  intro l
  induction l with
  | nil =>
    intro st1 st h
    simp [scanDay2] at h
  | cons f2 rest ih =>
    intro st1 st h
    rcases st1 with _ | ⟨tr1, r1⟩
    · simp [scanDay2] at h
    rcases hrf : env.readFile f2 with _ | ⟨tr2, r2⟩
    · simp [scanDay2, hrf] at h
    simp only [scanDay2, hrf] at h
    by_cases hov : tr2.stats.starttime - tr2.stats.delta ≤ traceEnd tr1
    · rw [if_pos hov] at h
      rcases hm : env.mergeSt (substNoData nd (tr1 :: r1) ++ substNoData nd (tr2 :: r2))
        with _ | merged
      · rw [hm] at h
        obtain ⟨a, b, ta, tb, tr, f2', h1, h2, h3⟩ := ih _ _ h
        exact ⟨a, b, ta, tb, tr, f2', List.mem_cons_of_mem _ h1,
          h2.trans (substNoData_shape nd (tr1 :: r1)), h3⟩
      · rw [hm] at h
        rcases merged with _ | ⟨trm, _ | ⟨m2, mrest⟩⟩
        · obtain ⟨a, b, ta, tb, tr, f2', h1, h2, h3⟩ := ih _ _ h
          exact ⟨a, b, ta, tb, tr, f2', List.mem_cons_of_mem _ h1,
            h2.trans (substNoData_shape nd (tr1 :: r1)), h3⟩
        · have h' : (if trm.stats.starttime ≤ s ∧ e ≤ traceEnd trm then
              (if hasNan (trimTrace s e trm) = true then
                scanDay2 env s e nd rest (substNoData nd (tr1 :: r1))
              else Except.ok (some (trimStream s e [trm])))
            else scanDay2 env s e nd rest (substNoData nd (tr1 :: r1))) =
              Except.ok (some st) := h
          by_cases hbs : trm.stats.starttime ≤ s ∧ e ≤ traceEnd trm
          · rw [if_pos hbs] at h'
            by_cases hnan : hasNan (trimTrace s e trm) = true
            · rw [if_pos hnan] at h'
              obtain ⟨a, b, ta, tb, tr, f2', h1, h2, h3⟩ := ih _ _ h'
              exact ⟨a, b, ta, tb, tr, f2', List.mem_cons_of_mem _ h1,
                h2.trans (substNoData_shape nd (tr1 :: r1)), h3⟩
            · rw [if_neg hnan] at h'
              have hst : trimStream s e [trm] = st := by
                injection h' with h''
                injection h'' with h''
              refine ⟨substNoData nd (tr1 :: r1), substNoData nd (tr2 :: r2),
                substTrace nd tr1, substTrace nd tr2, trm, f2, List.mem_cons_self _ _,
                substNoData_shape nd (tr1 :: r1), by rw [hrf], rfl, rfl, ?_, hm,
                hbs.1, hbs.2, Bool.eq_false_iff.mpr hnan, hst.symm⟩
              show (substTrace nd tr2).stats.starttime - (substTrace nd tr2).stats.delta ≤
                traceEnd (substTrace nd tr1)
              rw [substTrace_stats, substTrace_traceEnd]
              exact hov
          · rw [if_neg hbs] at h'
            obtain ⟨a, b, ta, tb, tr, f2', h1, h2, h3⟩ := ih _ _ h'
            exact ⟨a, b, ta, tb, tr, f2', List.mem_cons_of_mem _ h1,
              h2.trans (substNoData_shape nd (tr1 :: r1)), h3⟩
        · obtain ⟨a, b, ta, tb, tr, f2', h1, h2, h3⟩ := ih _ _ h
          exact ⟨a, b, ta, tb, tr, f2', List.mem_cons_of_mem _ h1,
            h2.trans (substNoData_shape nd (tr1 :: r1)), h3⟩
    · rw [if_neg hov] at h
      obtain ⟨a, b, ta, tb, tr, f2', h1, h2, h3⟩ := ih _ _ h
      exact ⟨a, b, ta, tb, tr, f2', List.mem_cons_of_mem _ h1, h2, h3⟩

/-- Every successful result of the outer day-1 loop comes from some day-1
candidate file, whose stream satisfies `pairMerged`. -/
theorem scanDay1_spec (env : Env) (s e : Int) (nd : Val) (l2 : List String) :
    ∀ (l1 : List String) (st : List Trace),
      scanDay1 env s e nd l2 l1 = Except.ok (some st) →
      ∃ f1, f1 ∈ l1 ∧ pairMerged env nd s e (env.readFile f1) l2 st := by
  intro l1
  induction l1 with
  | nil =>
    intro st h
    simp [scanDay1] at h
  | cons f1 rest ih =>
    intro st h
    simp only [scanDay1] at h
    rcases hscan : scanDay2 env s e nd l2 (env.readFile f1) with ex | r
    · rw [hscan] at h
      exact absurd h (by simp)
    · rw [hscan] at h
      rcases r with _ | st'
      · obtain ⟨f1', h1, h2⟩ := ih _ h
        exact ⟨f1', List.mem_cons_of_mem _ h1, h2⟩
      · have h' : (Except.ok (some st') : Py (Option (List Trace))) = Except.ok (some st) := h
        have hst : st' = st := by
          injection h' with h''
          injection h'' with h''
        subst hst
        exact ⟨f1, List.mem_cons_self _ _, scanDay2_spec env s e nd l2 _ _ hscan⟩

theorem filter_map_comm {α β : Type} (f : α → β) (p : β → Bool) (q : α → Bool)
    (hpq : ∀ a, p (f a) = q a) :
    ∀ l : List α, (l.map f).filter p = (l.filter q).map f := by
  intro l
  induction l with
  | nil => rfl
  | cons a t ih =>
    simp only [List.map, List.filter, hpq a]
    cases q a <;> simp [ih]

theorem selectComp_applyStepSt (sp : ProcStep) (c : Char) (st : List Trace) :
    selectComp (applyStepSt sp st) c = (selectComp st c).map (applyStep sp) :=
  filter_map_comm _ _ _ (fun _ => rfl) st

theorem selectComp_processStream (st : List Trace) (c : Char) :
    selectComp (processStream st) c = (selectComp st c).map applyPipe := by
  rw [processStream, selectComp_applyStepSt, selectComp_applyStepSt, selectComp_applyStepSt,
    selectComp_applyStepSt, selectComp_applyStepSt, List.map_map, List.map_map, List.map_map,
    List.map_map]
  rfl

theorem applyPipe_processing (tr : Trace) :
    (applyPipe tr).stats.processing = tr.stats.processing ++ pipelineSteps := by
  simp [applyPipe, applyStep, pipelineSteps]

theorem errBranch_ok (stm : List Trace) (r : GDReturn)
    (h : errBranch stm = Except.ok r) : r = GDReturn.errTuple := by
  unfold errBranch at h
  split at h
  · exact absurd h (by simp)
  split at h
  · exact absurd h (by simp)
  split at h
  · exact absurd h (by simp)
  injection h with h
  exact h.symm

/-- Inverting a successful `checkAndProcess`: the returned traces are the
heads of the E/N/Z selections of the processed stream. -/
theorem checkAndProcess_traces (stm : List Trace) (tN tE tZ : Trace)
    (h : checkAndProcess stm = Except.ok (GDReturn.traces tN tE tZ)) :
    (selectComp (processStream stm) 'E').head? = some tE ∧
    (selectComp (processStream stm) 'N').head? = some tN ∧
    (selectComp (processStream stm) 'Z').head? = some tZ := by
  unfold checkAndProcess at h
  split at h
  · exact absurd h (by simp)
  split at h
  · exact absurd (errBranch_ok _ _ h) (by simp)
  split at h
  · exact absurd (errBranch_ok _ _ h) (by simp)
  split at h
  · exact absurd h (by simp)
  split at h
  · exact absurd (errBranch_ok _ _ h) (by simp)
  split at h
  case h_1 ll0 ll1 ll2 hE0 hN0 hZ0 =>
    split at h
    · exact absurd h (by simp)
    split at h
    case h_1 trE' trN' trZ' hE hN hZ =>
      have h' : GDReturn.traces trN' trE' trZ' = GDReturn.traces tN tE tZ := by
        injection h
      injection h' with h1 h2 h3
      subst h1; subst h2; subst h3
      exact ⟨hE, hN, hZ⟩
    case h_2 =>
      exact absurd h (by simp)
  case h_2 =>
    exact absurd h (by simp)

/-! ## Claims -/

/-- C1.  The trace-length check of `get_data_NEZ` (utils.py lines 724-731)
is claimed to return `(True, None, None, None)` whenever the three traces do
not all have equal data length.  The code computes `ll2` from the Z
component again instead of N (line 727), while its own error message labels
the three lengths "(Z,E,N)": on a stream whose Z and E traces have 5 samples
but whose N trace has 3, the check passes and the call returns processed
traces of unequal length instead of the error tuple. -/
theorem claim1_length_check_bug :
    resultNLen (get_data_NEZ envEmpty clientC1 staA startA endA [] Val.nan) = some 3 ∧
    resultZLen (get_data_NEZ envEmpty clientC1 staA startA endA [] Val.nan) = some 5 :=
  ⟨rfl, rfl⟩

/-- C2.  `get_data_NEZ` is claimed to return `(True, None, None, None)` when
the retrieved stream misses a component.  On a 3-trace stream with Z and E
but no N, the check at utils.py line 713 evaluates
`st.select(component='N')[0]` on an empty selection and raises IndexError
instead of returning the error tuple. -/
theorem claim2_missing_component_raises :
    get_data_NEZ envEmpty clientC2 staA startA endA [] Val.nan =
      Except.error PyExc.indexError := rfl

/-- C3.  The fourth single-day search stage is claimed to try filename
Format 2 with each alternate network code.  The source formats that pattern
with `sta.network` instead of `anet` (utils.py lines 473-478, despite the
"Check Alternate Networks" comment), so a file that only matches Format 2
under the alternate network ("PO") is never found and the resolver returns
`(True, None)`; the second conjunct shows the intended pattern would have
matched the file. -/
theorem claim3_altnet_format2_bug :
    parse_localdata_for_comp envEmpty "Z" stdataC3 staCN startA endA Val.nan =
      Except.ok (true, none) ∧
    fnmatchFilter stdataC3 (sacPat2 "2020" "001" "PO" "STA" "Z") = stdataC3 :=
  ⟨rfl, rfl⟩

/-- C4 counterexample.  `startX` (2020-01-01) and `endX` (2021-01-01) fall on
different calendar days, yet the resolver takes the single-day path: the
branch condition compares only the `%j` day-of-year strings.  On this input
the single-day search succeeds with a local stream while the two-day search
would have returned `(True, None)`, so the two paths are observably
different. -/
theorem claim4_counterexample :
    sameCalendarDay startX endX = false ∧
    spansSingleDay startX endX = true ∧
    parse_localdata_for_comp envX "Z" stdataX staA startX endX Val.nan =
      Except.ok (false, some stX) ∧
    twoDayCase envX "Z" stdataX staA startX endX Val.nan = Except.ok (true, none) :=
  ⟨rfl, rfl, rfl, rfl⟩

/-- C4 (amended).  The resolver takes the single-day path exactly when the
`strftime("%j")` day-of-year strings of start and end coincide — the year is
ignored; in particular any same-calendar-day window takes the single-day
path, and the resolver is literally the branch on that condition. -/
theorem claim4_branch_on_jday (env : Env) (comp : String) (stdata : List String) (sta : Station)
    (s e : UTCDateTime) (ndval : Val) :
    (spansSingleDay s e = true ↔ strftimeJ s = strftimeJ e) ∧
    (s.year = e.year → s.jday = e.jday → spansSingleDay s e = true) ∧
    parse_localdata_for_comp env comp stdata sta s e ndval =
      (if spansSingleDay s e then Except.ok (singleDayCase env comp stdata sta s e ndval)
       else twoDayCase env comp stdata sta s e ndval) := by
  refine ⟨?_, ?_, rfl⟩
  · simp [spansSingleDay]
  · intro _ h2
    simp [spansSingleDay, strftimeJ, h2]

/-- C4 witness: the amended theorem applied at concrete inputs. -/
theorem claim4_witness :
    spansSingleDay startA endA = true ∧
    (spansSingleDay startX endX = true ↔ strftimeJ startX = strftimeJ endX) :=
  ⟨(claim4_branch_on_jday envEmpty "Z" [] staA startA endA Val.nan).2.1 rfl rfl,
   (claim4_branch_on_jday envX "Z" stdataX staA startX endX Val.nan).1⟩

/-- C5.  When the local path list is non-empty and all three components
resolve from local files, `get_data_NEZ` proceeds with the concatenated
local streams (`stZ + stN + stE`) — the remote client is never consulted, so
the result is the same for any two clients. -/
theorem claim5_local_preference (env : Env) (c1 c2 : Client) (sta : Station)
    (start endT : UTCDateTime) (stdata : List String) (ndval : Val) (sZ sN sE : List Trace)
    (hne : stdata ≠ [])
    (hZ : parse_localdata_for_comp env "Z" stdata sta start endT ndval =
      Except.ok (false, some sZ))
    (hN : parse_localdata_for_comp env "N" stdata sta start endT ndval =
      Except.ok (false, some sN))
    (hE : parse_localdata_for_comp env "E" stdata sta start endT ndval =
      Except.ok (false, some sE)) :
    get_data_NEZ env c1 sta start endT stdata ndval = checkAndProcess (sZ ++ sN ++ sE) ∧
    get_data_NEZ env c1 sta start endT stdata ndval =
      get_data_NEZ env c2 sta start endT stdata ndval := by
  have hlen : 0 < stdata.length := List.length_pos.mpr hne
  have hla : localAcquire env stdata sta start endT ndval =
      Except.ok (false, some (some (sZ ++ sN ++ sE))) := by
    unfold localAcquire
    rw [if_pos hlen, hZ, hN, hE]
    rfl
  constructor
  · unfold get_data_NEZ
    rw [hla]
    rfl
  · unfold get_data_NEZ
    rw [hla]
    rfl

/-- C5 witness: with all three components on disk, the result equals the
check-and-process of the three local streams and is independent of the
client. -/
theorem claim5_witness :
    get_data_NEZ envL client0 staA startA endA stdataL Val.nan =
      checkAndProcess (sZL ++ sNL ++ sEL) ∧
    get_data_NEZ envL client0 staA startA endA stdataL Val.nan =
      get_data_NEZ envL clientC1 staA startA endA stdataL Val.nan :=
  claim5_local_preference envL client0 clientC1 staA startA endA stdataL Val.nan sZL sNL sEL
    (by simp [stdataL]) rfl rfl rfl

/-- C6.  In the two-calendar-day case, a merge is attempted for a day-1 /
day-2 pair only when the day-1 end time is at or after the day-2 start time
minus one sample interval, and a successful `(False, stream)` return arises
only from a pair that passed that overlap test, merged to a single trace
whose start is at or before the requested start and whose end is at or after
the requested end; the returned stream is that merged trace trimmed to the
window. -/
theorem claim6_merge_overlap (env : Env) (comp : String) (stdata : List String) (sta : Station)
    (start endT : UTCDateTime) (ndval : Val) (st : List Trace)
    (h : twoDayCase env comp stdata sta start endT ndval = Except.ok (false, some st)) :
    mergedFrom env ndval start.t endT.t
      (twoDayFileCandidates stdata sta (strftimeY start) (strftimeJ start) comp)
      (twoDayFileCandidates stdata sta (strftimeY endT) (strftimeJ endT) comp) st := by
  simp only [twoDayCase] at h
  by_cases h12 :
      (twoDayFileCandidates stdata sta (strftimeY start) (strftimeJ start) comp).length = 0 ∧
      (twoDayFileCandidates stdata sta (strftimeY endT) (strftimeJ endT) comp).length = 0
  · rw [if_pos h12] at h
    simp at h
  · rw [if_neg h12] at h
    by_cases hpos :
        0 < (twoDayFileCandidates stdata sta (strftimeY start) (strftimeJ start) comp).length ∧
        0 < (twoDayFileCandidates stdata sta (strftimeY endT) (strftimeJ endT) comp).length
    · rw [if_pos hpos] at h
      rcases hscan : scanDay1 env start.t endT.t ndval
          (twoDayFileCandidates stdata sta (strftimeY endT) (strftimeJ endT) comp)
          (twoDayFileCandidates stdata sta (strftimeY start) (strftimeJ start) comp)
        with ex | r
      · rw [hscan] at h
        simp at h
      · rw [hscan] at h
        rcases r with _ | st'
        · simp at h
        · have h' : (Except.ok (false, some st') : Py (Bool × Option (List Trace))) =
              Except.ok (false, some st) := h
          have hst : st' = st := by
            injection h' with h''
            injection h'' with h1 h2
            injection h2 with h2
          subst hst
          exact scanDay1_spec env start.t endT.t ndval _ _ _ hscan
    · rw [if_neg hpos] at h
      simp at h

/-- C6 witness: the theorem applied to a concrete two-day merge that
succeeds, with the day-1 file located by the alternate-network Format-2
stage (which only the two-day branch performs with `anet`). -/
theorem claim6_witness :
    mergedFrom envB Val.nan startB.t endB.t
      (twoDayFileCandidates stdataB staCN (strftimeY startB) (strftimeJ startB) "Z")
      (twoDayFileCandidates stdataB staCN (strftimeY endB) (strftimeJ endB) "Z") stB :=
  claim6_merge_overlap envB "Z" stdataB staCN startB endB Val.nan stB rfl

/-- C7.  Whenever `get_data_NEZ` returns `(False, trN, trE, trZ)`, there is a
stream that passed the checks such that each returned trace is the head of
the corresponding component selection of the processed stream, and its
processing log extends the original log by exactly the five pipeline steps —
demean, linear detrend, lowpass at 2.5 Hz, resample to 5 Hz, bandpass
0.01-0.25 Hz — in that order. -/
theorem claim7_processing_order (env : Env) (client : Client) (sta : Station)
    (start endT : UTCDateTime) (stdata : List String) (ndval : Val) (tN tE tZ : Trace)
    (h : get_data_NEZ env client sta start endT stdata ndval =
      Except.ok (GDReturn.traces tN tE tZ)) :
    ∃ stm tN0 tE0 tZ0,
      checkAndProcess stm = Except.ok (GDReturn.traces tN tE tZ) ∧
      processStream stm = stm.map applyPipe ∧
      (selectComp stm 'N').head? = some tN0 ∧ tN = applyPipe tN0 ∧
      tN.stats.processing = tN0.stats.processing ++ pipelineSteps ∧
      (selectComp stm 'E').head? = some tE0 ∧ tE = applyPipe tE0 ∧
      tE.stats.processing = tE0.stats.processing ++ pipelineSteps ∧
      (selectComp stm 'Z').head? = some tZ0 ∧ tZ = applyPipe tZ0 ∧
      tZ.stats.processing = tZ0.stats.processing ++ pipelineSteps := by
  unfold get_data_NEZ at h
  rcases hla : localAcquire env stdata sta start endT ndval with ex | es
  · rw [hla] at h
    simp at h
  · rw [hla] at h
    have h2 : finishStream (if es.1 = true then clientBlock client sta start.t endT.t
        else es).2 = Except.ok (GDReturn.traces tN tE tZ) := h
    rcases hv : (if es.1 = true then clientBlock client sta start.t endT.t else es).2
      with _ | ov
    · rw [hv] at h2
      simp [finishStream] at h2
    · rw [hv] at h2
      rcases ov with _ | stm
      · simp [finishStream] at h2
      · have hcap : checkAndProcess stm = Except.ok (GDReturn.traces tN tE tZ) := h2
        obtain ⟨hE, hN, hZ⟩ := checkAndProcess_traces stm tN tE tZ hcap
        rw [selectComp_processStream, List.head?_map] at hE hN hZ
        obtain ⟨tE0, hE0, hE1⟩ := Option.map_eq_some'.mp hE
        obtain ⟨tN0, hN0, hN1⟩ := Option.map_eq_some'.mp hN
        obtain ⟨tZ0, hZ0, hZ1⟩ := Option.map_eq_some'.mp hZ
        refine ⟨stm, tN0, tE0, tZ0, hcap, ?_, hN0, hN1.symm, ?_, hE0, hE1.symm, ?_, hZ0,
          hZ1.symm, ?_⟩
        · rw [processStream, applyStepSt, applyStepSt, applyStepSt, applyStepSt, applyStepSt,
            List.map_map, List.map_map, List.map_map, List.map_map]
          rfl
        · rw [← hN1, applyPipe_processing]
        · rw [← hE1, applyPipe_processing]
        · rw [← hZ1, applyPipe_processing]

/-- C7 witness: the theorem applied to a concrete successful run. -/
theorem claim7_witness :
    ∃ stm tN0 tE0 tZ0,
      checkAndProcess stm = Except.ok (GDReturn.traces tNC1 tEC1 tZC1) ∧
      processStream stm = stm.map applyPipe ∧
      (selectComp stm 'N').head? = some tN0 ∧ tNC1 = applyPipe tN0 ∧
      tNC1.stats.processing = tN0.stats.processing ++ pipelineSteps ∧
      (selectComp stm 'E').head? = some tE0 ∧ tEC1 = applyPipe tE0 ∧
      tEC1.stats.processing = tE0.stats.processing ++ pipelineSteps ∧
      (selectComp stm 'Z').head? = some tZ0 ∧ tZC1 = applyPipe tZ0 ∧
      tZC1.stats.processing = tZ0.stats.processing ++ pipelineSteps :=
  claim7_processing_order envEmpty clientC1 staA startA endA [] Val.nan tNC1 tEC1 tZC1 rfl

/-- C8.  On every successful `get_options` run, giving both the overwrite
and the skip-existing flag sets both returned flags to `False`; giving at
most one leaves each returned flag equal to whether it was given
(utils.py lines 159-162). -/
theorem claim8_skip_ovr (parseUTC : String → Option UTCDateTime) (o : RawOpts) (r : Opts)
    (h : get_options_post parseUTC o = Except.ok r) :
    r.skip = (o.skip && !o.ovr) ∧ r.ovr = (o.ovr && !o.skip) := by
  simp only [get_options_post] at h
  rcases hS : constructTimeOpt parseUTC "start" o.startT with msg | rS
  · simp only [hS] at h
    exact Except.noConfusion h
  · simp only [hS] at h
    rcases hE : constructTimeOpt parseUTC "end" o.endT with msg | rE
    · simp only [hE] at h
      exact Except.noConfusion h
    · simp only [hE] at h
      rcases hU : (if o.userAuth.length = 0 then Except.ok ([] : List String)
          else if (o.userAuth.splitOn ":").length = 2 then Except.ok (o.userAuth.splitOn ":")
          else Except.error
            "Error: Incorrect Username and Password Strings for User Authentification")
        with msg | uA
      · simp only [hU] at h
        exact Except.noConfusion h
      · simp only [hU, Except.ok.injEq] at h
        subst h
        cases hs : o.skip <;> cases ho : o.ovr <;> simp [hs, ho]

/-- C8 witness: both flags given yields both `False`. -/
theorem claim8_witness :
    optsBoth.skip = (rawBoth.skip && !rawBoth.ovr) ∧
    optsBoth.ovr = (rawBoth.ovr && !rawBoth.skip) :=
  claim8_skip_ovr parseW rawBoth optsBoth rfl

/-- C9.  If no local stream is resolved (`localAcquire` yields the failure
state `(True, st unassigned)`, i.e. the path list was empty or some
component failed) and `sta.location` is empty, the client loop body never
runs, so `st` is read before assignment at utils.py line 709 and the call
raises UnboundLocalError instead of returning the error tuple. -/
theorem claim9_unbound_st (env : Env) (client : Client) (sta : Station)
    (start endT : UTCDateTime) (stdata : List String) (ndval : Val)
    (hloc : sta.location = [])
    (hla : localAcquire env stdata sta start endT ndval = Except.ok (true, none)) :
    get_data_NEZ env client sta start endT stdata ndval =
      Except.error PyExc.unboundLocal := by
  unfold get_data_NEZ
  rw [hla]
  simp [clientBlock, hloc, finishStream]

/-- C9 witness: empty path list and empty location list raise. -/
theorem claim9_witness :
    get_data_NEZ envEmpty client0 staNoLoc startA endA [] Val.nan =
      Except.error PyExc.unboundLocal :=
  claim9_unbound_st envEmpty client0 staNoLoc startA endA [] Val.nan rfl rfl

theorem constructTimeOpt_spec (parseUTC : String → Option UTCDateTime) (label raw : String)
    (rT : Option UTCDateTime) (h : constructTimeOpt parseUTC label raw = Except.ok rT) :
    if 0 < raw.length then ∃ u, parseUTC raw = some u ∧ rT = some u else rT = none := by
  unfold constructTimeOpt at h
  split at h
  case isTrue hlen =>
    rw [if_pos hlen]
    rcases hp : parseUTC raw with _ | u
    · rw [hp] at h
      exact absurd h (by simp)
    · rw [hp] at h
      injection h with h
      exact ⟨u, rfl, h.symm⟩
  case isFalse hlen =>
    rw [if_neg hlen]
    injection h with h
    exact h.symm

/-- C10.  In all three option parsers, the returned start and end times are
each `None` exactly when the raw string was empty and otherwise the parsed
UTCDateTime, and no check relates the two: an end time parsing strictly
earlier than the start time is accepted and returned unchanged. -/
theorem claim10_times (parseUTC : String → Option UTCDateTime) :
    (∀ (o : RawOpts) (r : Opts), get_options_post parseUTC o = Except.ok r →
      timesSpec parseUTC o.startT o.endT r.startT r.endT) ∧
    (∀ (o : RawOptsPrep) (r : OptsPrep), get_options_prep_post parseUTC o = Except.ok r →
      timesSpec parseUTC o.startT o.endT r.startT r.endT) ∧
    (∀ (o : RawOptsOL) (r : OptsOL), get_options_OL_post parseUTC o = Except.ok r →
      timesSpec parseUTC o.startT o.endT r.startT r.endT) ∧
    (∀ (s e : String) (u1 u2 : UTCDateTime), parseUTC s = some u1 → parseUTC e = some u2 →
      u2.t < u1.t → 0 < s.length → 0 < e.length →
      get_options_OL_post parseUTC { stkeys := "", startT := s, endT := e } =
        Except.ok { stkeys := Sum.inl "", startT := some u1, endT := some u2 }) := by
  refine ⟨?_, ?_, ?_, ?_⟩
  · intro o r h
    simp only [get_options_post] at h
    rcases hS : constructTimeOpt parseUTC "start" o.startT with msg | rS
    · simp only [hS] at h
      exact Except.noConfusion h
    · simp only [hS] at h
      rcases hE : constructTimeOpt parseUTC "end" o.endT with msg | rE
      · simp only [hE] at h
        exact Except.noConfusion h
      · simp only [hE] at h
        rcases hU : (if o.userAuth.length = 0 then Except.ok ([] : List String)
            else if (o.userAuth.splitOn ":").length = 2 then
              Except.ok (o.userAuth.splitOn ":")
            else Except.error
              "Error: Incorrect Username and Password Strings for User Authentification")
          with msg | uA
        · simp only [hU] at h
          exact Except.noConfusion h
        · simp only [hU, Except.ok.injEq] at h
          subst h
          exact ⟨constructTimeOpt_spec parseUTC "start" o.startT rS hS,
            constructTimeOpt_spec parseUTC "end" o.endT rE hE⟩
  · intro o r h
    simp only [get_options_prep_post] at h
    rcases hS : constructTimeOpt parseUTC "start" o.startT with msg | rS
    · simp only [hS] at h
      exact Except.noConfusion h
    · simp only [hS] at h
      rcases hE : constructTimeOpt parseUTC "end" o.endT with msg | rE
      · simp only [hE] at h
        exact Except.noConfusion h
      · simp only [hE] at h
        rcases hU : (if o.userAuth.length = 0 then Except.ok ([] : List String)
            else if (o.userAuth.splitOn ":").length = 2 then
              Except.ok (o.userAuth.splitOn ":")
            else Except.error
              "Error: Incorrect Username and Password Strings for User Authentification")
          with msg | uA
        · simp only [hU] at h
          exact Except.noConfusion h
        · simp only [hU, Except.ok.injEq] at h
          subst h
          exact ⟨constructTimeOpt_spec parseUTC "start" o.startT rS hS,
            constructTimeOpt_spec parseUTC "end" o.endT rE hE⟩
  · intro o r h
    simp only [get_options_OL_post] at h
    rcases hS : constructTimeOpt parseUTC "start" o.startT with msg | rS
    · simp only [hS] at h
      exact Except.noConfusion h
    · simp only [hS] at h
      rcases hE : constructTimeOpt parseUTC "end" o.endT with msg | rE
      · simp only [hE] at h
        exact Except.noConfusion h
      · simp only [hE, Except.ok.injEq] at h
        subst h
        exact ⟨constructTimeOpt_spec parseUTC "start" o.startT rS hS,
          constructTimeOpt_spec parseUTC "end" o.endT rE hE⟩
  · intro s e u1 u2 hp1 hp2 _ hs he
    have hcs : constructTimeOpt parseUTC "start" s = Except.ok (some u1) := by
      unfold constructTimeOpt
      rw [if_pos hs, hp1]
    have hce : constructTimeOpt parseUTC "end" e = Except.ok (some u2) := by
      unfold constructTimeOpt
      rw [if_pos he, hp2]
    unfold get_options_OL_post
    dsimp only
    simp only [hcs, hce]
    rfl

/-- C10 witness: `parseW` parses "A" to a later time than "B"; processing of
raw options with `startT = "A", endT = "B"` succeeds and returns both times
unchanged, both in `get_options` and in `get_options_OL_proc`. -/
theorem claim10_witness :
    timesSpec parseW rawRev.startT rawRev.endT optsRev.startT optsRev.endT ∧
    get_options_OL_post parseW rawRevOL = Except.ok
      { stkeys := Sum.inl "", startT := some { t := 100, year := 2020, jday := 2 },
        endT := some { t := 0, year := 2020, jday := 1 } } :=
  ⟨(claim10_times parseW).1 rawRev optsRev rfl,
   (claim10_times parseW).2.2.2 "A" "B" { t := 100, year := 2020, jday := 2 }
     { t := 0, year := 2020, jday := 1 } rfl rfl (by decide) (by decide) (by decide)⟩

end SplitPy
